import Mathlib

/-!
Verification of the authentication core of a personal-finance web
application (Express + PostgreSQL backend).  The subject code is

  * backend/src/auth.ts            — password hashing (bcrypt) and JWT
                                     issuance/verification wrappers;
  * backend/src/middleware/auth.ts — the bearer-token access guard;
  * backend/src/routes/auth.ts     — the register and login handlers.

The embedding is shallow: each TypeScript function becomes a Lean
function.  Strings on the wire (headers, tokens, hash strings) are
embedded as lists of characters so that their splitting and parsing can
be reasoned about directly.  The external collaborators that the
repository only calls — the bcrypt library, the jsonwebtoken library,
the zod e-mail format check, the database — are modelled from the
specification and injected as explicit parameters, as noted on each
definition.  Randomness (bcrypt salt generation) and the system clock
become explicit arguments, and the process environment becomes a lookup
function.
-/

/-! ### Decimal encoding of natural numbers

A fuel-based digit expansion is used so that every definition reduces in
the kernel.  These model the number formatting used inside the opaque
wire strings (bcrypt hash fields, token payload fields).
-/

def digitToChar (d : Nat) : Char := Char.ofNat (48 + d)

def charToDigit (c : Char) : Option Nat :=
  if 48 ≤ c.toNat ∧ c.toNat ≤ 57 then some (c.toNat - 48) else none

def natDigitsAux : Nat → Nat → List Nat
  | _, 0 => []
  | 0, _ + 1 => []
  | fuel + 1, m + 1 => (m + 1) % 10 :: natDigitsAux fuel ((m + 1) / 10)

def natDigits (n : Nat) : List Nat := natDigitsAux n n

def natOfDigits : List Nat → Nat
  | [] => 0
  | d :: ds => d + 10 * natOfDigits ds

def encodeNat (n : Nat) : List Char := ((natDigits n).reverse).map digitToChar

def decodeDigits : List Char → Option (List Nat)
  | [] => some []
  | c :: cs =>
    match charToDigit c, decodeDigits cs with
    | some d, some ds => some (d :: ds)
    | _, _ => none

def decodeNat (cs : List Char) : Option Nat :=
  (decodeDigits cs).map (fun ds => natOfDigits ds.reverse)

/-! ### Splitting a character list at a separator

Mirrors the semantics of the JavaScript idiom s.split(sep) for a
single-character separator: the result is never empty, adjacent
separators produce empty segments, and the empty string splits to one
empty segment.
-/

def spaceChar : Char := Char.ofNat 32

def splitOnChar (sep : Char) : List Char → List (List Char)
  | [] => [[]]
  | c :: rest =>
    if c = sep then [] :: splitOnChar sep rest
    else
      match splitOnChar sep rest with
      | [] => [[c]]
      | g :: gs => (c :: g) :: gs

/-! ### Environment and configuration

The process environment is a lookup function.  From auth.ts:

  const JWT_SECRET = process.env.JWT_SECRET || (insecure fallback)
  const JWT_EXPIRES_IN = process.env.JWT_EXPIRES_IN || (7 days)
-/

abbrev Env := String → Option String

def defaultSecretFallback : String := "your_super_secret_key_here_min_32_chars"

def JWT_SECRET (env : Env) : String := (env "JWT_SECRET").getD defaultSecretFallback

def JWT_EXPIRES_IN (env : Env) : String := (env "JWT_EXPIRES_IN").getD "7d"

/-- Modelled from the spec: the duration parsing performed by the
external jsonwebtoken/ms collaborator, which is not part of this
repository.  The spec fixes only the day form used by the default
lifetime of seven days, written as the digit count followed by the
letter d. -/
def parseExpiresIn (s : String) : Nat :=
  match s.data.getLast? with
  | some c =>
    if c = 'd' then ((decodeNat s.data.dropLast).getD 0) * 86400
    else (decodeNat s.data).getD 0
  | none => 0

structure JwtConfig where
  secret : List Char
  expiresInSeconds : Nat
deriving DecidableEq

def jwtConfigOf (env : Env) : JwtConfig :=
  { secret := (JWT_SECRET env).data
    expiresInSeconds := parseExpiresIn (JWT_EXPIRES_IN env) }

def emptyEnv : Env := fun _ => none

def defaultConfig : JwtConfig := jwtConfigOf emptyEnv

/-! ### Credential hasher (bcrypt model)

The bcrypt library is an external collaborator; auth.ts only calls
bcrypt.hash and bcrypt.compare.
-/

/-- A concrete 32-bit rolling checksum standing in for the
cryptographic core of the external one-way functions.  Only its
determinism is relied on by the theorems below. -/
def hashChars (l : List Char) : Nat :=
  l.foldl (fun acc c => (acc * 31 + c.toNat) % 4294967296) 5381

/-- Modelled from the spec: the digest that the external bcrypt
collaborator derives from the plaintext together with the salt and cost
parameters embedded in the stored hash string. -/
def bcryptDigest (password : String) (cost salt : Nat) : Nat :=
  ((hashChars password.data * 31 + salt) * 31 + cost) % 4294967296

structure BcryptParams where
  cost : Nat
  salt : Nat
  digest : Nat
deriving DecidableEq

/-- Modelled from the spec: a bcrypt hash string is an opaque string
embedding the cost, the random salt, and the digest; here the three
fields are decimal numbers joined by the dollar separator, as in the
modular-crypt layout of real bcrypt output. -/
def bcryptHashString (p : BcryptParams) : List Char :=
  encodeNat p.cost ++ '$' :: (encodeNat p.salt ++ '$' :: encodeNat p.digest)

def parseBcryptHash (cs : List Char) : Option BcryptParams :=
  match splitOnChar '$' cs with
  | [a, b, c] =>
    match decodeNat a, decodeNat b, decodeNat c with
    | some cost, some salt, some digest => some ⟨cost, salt, digest⟩
    | _, _, _ => none
  | _ => none

/-- Modelled from the spec: bcrypt.hash with an explicit random salt
(the library draws the salt internally; here it is passed in). -/
def bcryptHash (password : String) (rounds salt : Nat) : List Char :=
  bcryptHashString ⟨rounds, salt, bcryptDigest password rounds salt⟩

/-- Modelled from the spec: bcrypt.compare re-derives the digest from
the plaintext and the parameters embedded in the stored string; a
string that does not parse yields false rather than an error. -/
def bcryptCompare (password : String) (stored : List Char) : Bool :=
  match parseBcryptHash stored with
  | some p => bcryptDigest password p.cost p.salt == p.digest
  | none => false

/-- From auth.ts: the literal constant saltRounds equal to ten inside
hashPassword.  The environment argument records that the surrounding
function could read the environment; the constant ignores it. -/
def saltRoundsUsed (env : Env) : Nat := 10

/-- From auth.ts: hashPassword delegates to bcrypt.hash with the
constant cost.  The salt drawn by the library is an explicit
argument. -/
def hashPassword (env : Env) (salt : Nat) (password : String) : List Char :=
  bcryptHash password (saltRoundsUsed env) salt

/-- From auth.ts: verifyPassword delegates to bcrypt.compare. -/
def verifyPassword (password : String) (stored : List Char) : Bool :=
  bcryptCompare password stored

/-! ### Token service (jsonwebtoken model)

The jsonwebtoken library is an external collaborator; auth.ts calls
jwt.sign and jwt.verify.  A token is the payload part and the signature
part joined by a dot; the payload carries the subject user id, the
issued-at time and the expiry time.
-/

structure JwtPayload where
  userId : Nat
  iat : Nat
  exp : Nat
deriving DecidableEq

/-- Modelled from the spec: the keyed signature over the serialized
payload, computed with the process-wide secret. -/
def mac (key msg : List Char) : Nat :=
  hashChars (key ++ '|' :: msg)

def encodePayload (p : JwtPayload) : List Char :=
  encodeNat p.userId ++ ',' :: (encodeNat p.iat ++ ',' :: encodeNat p.exp)

def decodePayload (cs : List Char) : Option JwtPayload :=
  match splitOnChar ',' cs with
  | [a, b, c] =>
    match decodeNat a, decodeNat b, decodeNat c with
    | some u, some i, some e => some ⟨u, i, e⟩
    | _, _, _ => none
  | _ => none

inductive JwtError where
  | malformed
  | badSignature
  | expired
deriving DecidableEq

/-- Modelled from the spec: jwt.sign encodes the subject user id with
issued-at and expiry claims and appends the signature. -/
def jwtSign (cfg : JwtConfig) (now : Nat) (userId : Nat) : List Char :=
  let pc := encodePayload ⟨userId, now, now + cfg.expiresInSeconds⟩
  pc ++ '.' :: encodeNat (mac cfg.secret pc)

/-- Modelled from the spec: jwt.verify checks structure, then the
signature against the secret, then the expiry; each failure is thrown
by the library, embedded here as an error result. -/
def jwtVerify (cfg : JwtConfig) (now : Nat) (t : List Char) : Except JwtError JwtPayload :=
  match splitOnChar '.' t with
  | [pc, sc] =>
    match decodePayload pc, decodeNat sc with
    | some p, some s =>
      if s = mac cfg.secret pc then
        if p.exp ≤ now then Except.error JwtError.expired
        else Except.ok p
      else Except.error JwtError.badSignature
    | _, _ => Except.error JwtError.malformed
  | _ => Except.error JwtError.malformed

/-- From auth.ts: generateToken signs the user id with the configured
secret and lifetime. -/
def generateToken (cfg : JwtConfig) (now : Nat) (userId : Nat) : List Char :=
  jwtSign cfg now userId

/-- From auth.ts: verifyToken wraps jwt.verify in a try/catch that
collapses every thrown failure to null. -/
def verifyToken (cfg : JwtConfig) (now : Nat) (token : List Char) : Option JwtPayload :=
  match jwtVerify cfg now token with
  | Except.ok d => some d
  | Except.error _ => none

/-! ### Access guard (middleware/auth.ts)

authenticateToken reads the authorization header, takes the second
space-separated segment as the token (the JavaScript split-space
index-one idiom), rejects when that value is missing or empty (both are
falsy), and otherwise delegates to verifyToken.  The verifier is
injected as a parameter so that theorems can quantify over it; the
repository instantiates it with verifyToken.
-/

inductive AuthResult where
  | rejected (status : Nat) (success : Bool) (message : String)
  | authenticated (userId : Nat)
deriving DecidableEq

def extractToken (authHeader : Option (List Char)) : Option (List Char) :=
  authHeader.bind (fun h => (splitOnChar spaceChar h).get? 1)

def tokenDecision (verify : List Char → Option JwtPayload) (t : List Char) : AuthResult :=
  match verify t with
  | none => AuthResult.rejected 401 false "Invalid or expired token"
  | some d => AuthResult.authenticated d.userId

def authenticateTokenWith (verify : List Char → Option JwtPayload)
    (authHeader : Option (List Char)) : AuthResult :=
  match extractToken authHeader with
  | none => AuthResult.rejected 401 false "Access token required"
  | some t =>
    if t = [] then AuthResult.rejected 401 false "Access token required"
    else tokenDecision verify t

def authenticateToken (cfg : JwtConfig) (now : Nat) (authHeader : Option (List Char)) :
    AuthResult :=
  authenticateTokenWith (verifyToken cfg now) authHeader

/-! ### Register and login handlers (routes/auth.ts)

The users table is a list of rows; the zod e-mail format check is an
injected predicate (external collaborator); the password hasher is an
injected function so that theorems can state that a path never invokes
it.  The length minima (six for registration, one for login) and the
response statuses and messages are taken directly from the source.
-/

structure UserRow where
  id : Nat
  email : String
  passwordHash : List Char
  name : Option String
deriving DecidableEq

abbrev Db := List UserRow

structure RegisterResponse where
  status : Nat
  success : Bool
  message : String
  userId : Option Nat
  userEmail : Option String
deriving DecidableEq

structure LoginResponse where
  status : Nat
  success : Bool
  message : String
  token : Option (List Char)
  userId : Option Nat
  userEmail : Option String
deriving DecidableEq

/-- The id assigned by the serial column of the external database for
the next inserted row. -/
def nextUserId (db : Db) : Nat := db.length + 1

def register (emailValid : String → Bool) (hashWith : String → List Char)
    (db : Db) (email password : String) (name : Option String) :
    RegisterResponse × Db :=
  if emailValid email = true ∧ 6 ≤ password.length then
    if db.any (fun w => w.email == email) = true then
      (⟨400, false, "Email already exists", none, none⟩, db)
    else
      let ph := hashWith password
      let uid := nextUserId db
      let nameVal := match name with
        | some s => if s = "" then none else some s
        | none => none
      (⟨201, true, "User registered successfully", some uid, some email⟩,
       db ++ [⟨uid, email, ph, nameVal⟩])
  else
    (⟨400, false, "Validation error", none, none⟩, db)

def login (emailValid : String → Bool) (cfg : JwtConfig) (now : Nat)
    (db : Db) (email password : String) : LoginResponse :=
  if emailValid email = true ∧ 1 ≤ password.length then
    match db.find? (fun w => w.email == email) with
    | none => ⟨401, false, "Invalid email or password", none, none, none⟩
    | some u =>
      if verifyPassword password u.passwordHash then
        ⟨200, true, "Login successful", some (generateToken cfg now u.id),
         some u.id, some u.email⟩
      else ⟨401, false, "Invalid email or password", none, none, none⟩
  else ⟨400, false, "Validation error", none, none, none⟩

/-- A one-row store holding a registered credential, used by concrete
instances below. -/
def dbOne : Db := [⟨1, "a@b.com", hashPassword emptyEnv 5 "secret1", none⟩]

def envTwelve : Env := fun _ => some "12"

/-! ### Helper lemmas: decimal encoding round-trips -/

theorem charToDigit_digitToChar (d : Nat) (h : d < 10) :
    charToDigit (digitToChar d) = some d := by
  interval_cases d <;> decide

theorem natOfDigits_natDigitsAux : ∀ fuel n, n ≤ fuel →
    natOfDigits (natDigitsAux fuel n) = n := by
  intro fuel
  induction fuel with
  | zero =>
    intro n h
    interval_cases n
    rfl
  | succ f ih =>
    intro n h
    match n with
    | 0 => rfl
    | m + 1 =>
      have hdiv : (m + 1) / 10 ≤ f := by
        have h1 : (m + 1) / 10 < m + 1 := Nat.div_lt_self (Nat.succ_pos m) (by norm_num)
        omega
      simp only [natDigitsAux, natOfDigits, ih _ hdiv]
      omega

theorem natOfDigits_natDigits (n : Nat) : natOfDigits (natDigits n) = n :=
  natOfDigits_natDigitsAux n n (Nat.le_refl n)

theorem natDigitsAux_lt : ∀ fuel n d, d ∈ natDigitsAux fuel n → d < 10 := by
  intro fuel
  induction fuel with
  | zero =>
    intro n d hd
    match n with
    | 0 => simp [natDigitsAux] at hd
    | m + 1 => simp [natDigitsAux] at hd
  | succ f ih =>
    intro n d hd
    match n with
    | 0 => simp [natDigitsAux] at hd
    | m + 1 =>
      simp only [natDigitsAux, List.mem_cons] at hd
      rcases hd with h | h
      · omega
      · exact ih _ _ h

theorem natDigits_lt (n d : Nat) (h : d ∈ natDigits n) : d < 10 :=
  natDigitsAux_lt n n d h

theorem decodeDigits_map (l : List Nat) (h : ∀ d ∈ l, d < 10) :
    decodeDigits (l.map digitToChar) = some l := by
  induction l with
  | nil => rfl
  | cons d ds ih =>
    have hd : d < 10 := h d (List.mem_cons_self d ds)
    have hrest : decodeDigits (ds.map digitToChar) = some ds :=
      ih (fun x hx => h x (List.mem_cons_of_mem d hx))
    simp [decodeDigits, charToDigit_digitToChar d hd, hrest]

theorem decodeNat_encodeNat (n : Nat) : decodeNat (encodeNat n) = some n := by
  unfold decodeNat encodeNat
  rw [decodeDigits_map]
  · simp [natOfDigits_natDigits]
  · intro d hd
    exact natDigits_lt n d (List.mem_reverse.mp hd)

theorem encodeNat_mem_range (n : Nat) (c : Char) (h : c ∈ encodeNat n) :
    48 ≤ c.toNat ∧ c.toNat ≤ 57 := by
  unfold encodeNat at h
  rcases List.mem_map.mp h with ⟨d, hd, rfl⟩
  have hd10 : d < 10 := natDigits_lt n d (List.mem_reverse.mp hd)
  interval_cases d <;> exact ⟨by decide, by decide⟩

theorem encodeNat_ne_of_toNat (n : Nat) (sep : Char)
    (hsep : sep.toNat < 48 ∨ 57 < sep.toNat) : ∀ c ∈ encodeNat n, c ≠ sep := by
  intro c hc heq
  have hr := encodeNat_mem_range n c hc
  subst heq
  omega

/-! ### Helper lemmas: separator splitting -/

theorem splitOnChar_no_sep (sep : Char) (xs : List Char) (h : ∀ c ∈ xs, c ≠ sep) :
    splitOnChar sep xs = [xs] := by
  induction xs with
  | nil => rfl
  | cons c rest ih =>
    have hc : c ≠ sep := h c (List.mem_cons_self c rest)
    have hrest : splitOnChar sep rest = [rest] :=
      ih (fun x hx => h x (List.mem_cons_of_mem c hx))
    simp [splitOnChar, hc, hrest]

theorem splitOnChar_append (sep : Char) (xs ys : List Char) (h : ∀ c ∈ xs, c ≠ sep) :
    splitOnChar sep (xs ++ sep :: ys) = xs :: splitOnChar sep ys := by
  induction xs with
  | nil => simp [splitOnChar]
  | cons c rest ih =>
    have hc : c ≠ sep := h c (List.mem_cons_self c rest)
    have hrest : splitOnChar sep (rest ++ sep :: ys) = rest :: splitOnChar sep ys :=
      ih (fun x hx => h x (List.mem_cons_of_mem c hx))
    simp [splitOnChar, hc, hrest]

/-! ### Helper lemmas: wire format round-trips -/

theorem parseBcryptHash_bcryptHashString (p : BcryptParams) :
    parseBcryptHash (bcryptHashString p) = some p := by
  unfold parseBcryptHash bcryptHashString
  rw [splitOnChar_append '$' _ _ (encodeNat_ne_of_toNat _ '$' (Or.inl (by decide))),
    splitOnChar_append '$' _ _ (encodeNat_ne_of_toNat _ '$' (Or.inl (by decide))),
    splitOnChar_no_sep '$' _ (encodeNat_ne_of_toNat _ '$' (Or.inl (by decide)))]
  simp [decodeNat_encodeNat]

theorem decodePayload_encodePayload (p : JwtPayload) :
    decodePayload (encodePayload p) = some p := by
  unfold decodePayload encodePayload
  rw [splitOnChar_append ',' _ _ (encodeNat_ne_of_toNat _ ',' (Or.inl (by decide))),
    splitOnChar_append ',' _ _ (encodeNat_ne_of_toNat _ ',' (Or.inl (by decide))),
    splitOnChar_no_sep ',' _ (encodeNat_ne_of_toNat _ ',' (Or.inl (by decide)))]
  simp [decodeNat_encodeNat]

theorem mem_encodePayload (p : JwtPayload) (c : Char) (h : c ∈ encodePayload p) :
    c = ',' ∨ (48 ≤ c.toNat ∧ c.toNat ≤ 57) := by
  unfold encodePayload at h
  rcases List.mem_append.mp h with h1 | h2
  · exact Or.inr (encodeNat_mem_range _ _ h1)
  · rcases List.mem_cons.mp h2 with h3 | h4
    · exact Or.inl h3
    · rcases List.mem_append.mp h4 with h5 | h6
      · exact Or.inr (encodeNat_mem_range _ _ h5)
      · rcases List.mem_cons.mp h6 with h7 | h8
        · exact Or.inl h7
        · exact Or.inr (encodeNat_mem_range _ _ h8)

theorem encodePayload_ne_dot (p : JwtPayload) : ∀ c ∈ encodePayload p, c ≠ '.' := by
  intro c hc heq
  subst heq
  rcases mem_encodePayload p _ hc with h | h
  · exact absurd h (by decide)
  · exact absurd h (by decide)

theorem jwtVerify_jwtSign (cfg : JwtConfig) (now now2 u : Nat) :
    jwtVerify cfg now2 (jwtSign cfg now u) =
      if now + cfg.expiresInSeconds ≤ now2 then Except.error JwtError.expired
      else Except.ok ⟨u, now, now + cfg.expiresInSeconds⟩ := by
  unfold jwtVerify jwtSign
  rw [splitOnChar_append '.' _ _ (encodePayload_ne_dot _),
    splitOnChar_no_sep '.' _ (encodeNat_ne_of_toNat _ '.' (Or.inl (by decide)))]
  simp [decodePayload_encodePayload, decodeNat_encodeNat]

/-! ### Claim C1 -/

/-- C1: for every environment, every salt drawn by the library, and
every password p, verifying p against the hash produced for p
succeeds: verifyPassword applied to p and hashPassword of p returns
true. -/
theorem C1_hash_verify_roundtrip (env : Env) (salt : Nat) (p : String) :
    verifyPassword p (hashPassword env salt p) = true := by
  unfold verifyPassword bcryptCompare hashPassword bcryptHash
  rw [parseBcryptHash_bcryptHashString]
  simp

/-! ### Claim C2 -/

/-- C2: for every configuration, issuance time, verification time not
past the configured expiry, and user id u, verifying the token
generated for u yields a decoded payload whose userId equals u, not
the null outcome. -/
theorem C2_issue_verify_roundtrip (cfg : JwtConfig) (now now2 u : Nat)
    (h : now2 < now + cfg.expiresInSeconds) :
    ∃ p, verifyToken cfg now2 (generateToken cfg now u) = some p ∧ p.userId = u := by
  refine ⟨⟨u, now, now + cfg.expiresInSeconds⟩, ?_, rfl⟩
  unfold verifyToken generateToken
  rw [jwtVerify_jwtSign, if_neg (by omega)]

/-- C2 witness: a token issued for user seven at time zero verifies at
time zero under the default configuration. -/
theorem C2_issue_verify_roundtrip_witness :
    ∃ p, verifyToken defaultConfig 0 (generateToken defaultConfig 0 7) = some p ∧
      p.userId = 7 :=
  C2_issue_verify_roundtrip defaultConfig 0 0 7 (by decide)

/-! ### Claim C3 -/

/-- C3: verifyToken is a total function returning an optional payload;
whenever the underlying library verification throws any error — bad
signature, malformed structure, or expiry — verifyToken returns the
single null outcome none, and on success it returns the decoded
payload, so every failure mode collapses to the same result and no
exception escapes. -/
theorem C3_verify_collapses_failures (cfg : JwtConfig) (now : Nat) (t : List Char) :
    (∀ e, jwtVerify cfg now t = Except.error e → verifyToken cfg now t = none) ∧
    (∀ p, jwtVerify cfg now t = Except.ok p → verifyToken cfg now t = some p) := by
  constructor <;> intro x hx <;> unfold verifyToken <;> rw [hx]

/-- C3 witness: a structurally malformed token makes the library model
throw and verifyToken return none. -/
theorem C3_verify_collapses_failures_witness :
    jwtVerify defaultConfig 0 "garbage".data = Except.error JwtError.malformed ∧
    verifyToken defaultConfig 0 "garbage".data = none :=
  ⟨rfl, (C3_verify_collapses_failures defaultConfig 0 "garbage".data).1
    JwtError.malformed rfl⟩

/-! ### Claim C4 -/

/-- C4: for every request whose authorization header is absent or
carries no token segment, the guard rejects with status 401, success
false and the access-token-required message, and the result is the
same for every verifier, so token verification is never invoked. -/
theorem C4_missing_token_rejected (v1 v2 : List Char → Option JwtPayload)
    (h : Option (List Char)) (hnone : extractToken h = none) :
    authenticateTokenWith v1 h = AuthResult.rejected 401 false "Access token required" ∧
    authenticateTokenWith v1 h = authenticateTokenWith v2 h := by
  unfold authenticateTokenWith
  rw [hnone]
  exact ⟨rfl, rfl⟩

/-- C4 witness: an absent header is rejected identically under the
real verifier and under an always-accepting verifier. -/
theorem C4_missing_token_rejected_witness :
    authenticateTokenWith (verifyToken defaultConfig 0) none =
      AuthResult.rejected 401 false "Access token required" ∧
    authenticateTokenWith (verifyToken defaultConfig 0) none =
      authenticateTokenWith (fun _ => some ⟨42, 0, 0⟩) none :=
  C4_missing_token_rejected (verifyToken defaultConfig 0) (fun _ => some ⟨42, 0, 0⟩)
    none rfl

/-! ### Claim C5 -/

/-- C5: for every request carrying a nonempty token segment that the
verifier reports invalid, the guard rejects with the
invalid-or-expired message, and this rejection carries the same 401
status, success flag and shape as the missing-token rejection, so the
two outcomes differ only in the message field. -/
theorem C5_invalid_token_same_status (v : List Char → Option JwtPayload)
    (h : Option (List Char)) (t : List Char)
    (hex : extractToken h = some t) (hne : t ≠ []) (hv : v t = none) :
    authenticateTokenWith v h = AuthResult.rejected 401 false "Invalid or expired token" ∧
    authenticateTokenWith v none = AuthResult.rejected 401 false "Access token required" := by
  constructor
  · unfold authenticateTokenWith tokenDecision
    simp only [hex]
    rw [if_neg hne, hv]
  · rfl

/-- C5 witness: a bearer header with an unparseable token is rejected
with the invalid-token message while an absent header is rejected with
the required-token message, both with status 401. -/
theorem C5_invalid_token_same_status_witness :
    authenticateTokenWith (verifyToken defaultConfig 0) (some "Bearer bad".data) =
      AuthResult.rejected 401 false "Invalid or expired token" ∧
    authenticateTokenWith (verifyToken defaultConfig 0) none =
      AuthResult.rejected 401 false "Access token required" :=
  C5_invalid_token_same_status (verifyToken defaultConfig 0) (some "Bearer bad".data)
    "bad".data (by decide) (by decide) (by decide)

/-! ### Claim C6 -/

/-- C6 counterexample: a login request whose unregistered email is
accompanied by an empty password fails the schema validation that the
handler runs first, so it returns the 400 validation response, which
differs from the 401 response produced by a registered email with a
wrong password; the two failure causes are therefore distinguishable
for such a request, refuting the claim as stated. -/
theorem C6_login_counterexample :
    (dbOne.find? (fun w => w.email == "c@d.com") = none) ∧
    (login (fun _ => true) defaultConfig 0 dbOne "c@d.com" "").status = 400 ∧
    (login (fun _ => true) defaultConfig 0 dbOne "c@d.com" "").message = "Validation error" ∧
    login (fun _ => true) defaultConfig 0 dbOne "c@d.com" "" ≠
      login (fun _ => true) defaultConfig 0 dbOne "a@b.com" "wrong" := by
  refine ⟨by decide, by decide, by decide, by decide⟩

/-- C6 amended: for login requests that pass the schema validation
(accepted email format and nonempty password), a request with an
unregistered email and a request with a registered email but wrong
password produce the identical response: status 401 with success
false and the invalid-email-or-password message, with no token and no
user fields. -/
theorem C6_login_indistinguishable (emailValid : String → Bool) (cfg : JwtConfig)
    (now : Nat) (db : Db) (e1 p1 e2 p2 : String) (u : UserRow)
    (hv1 : emailValid e1 = true) (hl1 : 1 ≤ p1.length)
    (hv2 : emailValid e2 = true) (hl2 : 1 ≤ p2.length)
    (hfind1 : db.find? (fun w => w.email == e1) = none)
    (hfind2 : db.find? (fun w => w.email == e2) = some u)
    (hpw : verifyPassword p2 u.passwordHash = false) :
    login emailValid cfg now db e1 p1 = login emailValid cfg now db e2 p2 ∧
    login emailValid cfg now db e1 p1 =
      ⟨401, false, "Invalid email or password", none, none, none⟩ := by
  have h1 : login emailValid cfg now db e1 p1 =
      ⟨401, false, "Invalid email or password", none, none, none⟩ := by
    unfold login
    rw [if_pos ⟨hv1, hl1⟩, hfind1]
  have h2 : login emailValid cfg now db e2 p2 =
      ⟨401, false, "Invalid email or password", none, none, none⟩ := by
    unfold login
    rw [if_pos ⟨hv2, hl2⟩, hfind2]
    simp [hpw]
  exact ⟨h1.trans h2.symm, h1⟩

/-- C6 witness: on the one-credential store, an unregistered email
with some password and the registered email with a wrong password
produce the same 401 response. -/
theorem C6_login_indistinguishable_witness :
    login (fun _ => true) defaultConfig 0 dbOne "c@d.com" "pw" =
      login (fun _ => true) defaultConfig 0 dbOne "a@b.com" "wrong" ∧
    login (fun _ => true) defaultConfig 0 dbOne "c@d.com" "pw" =
      ⟨401, false, "Invalid email or password", none, none, none⟩ :=
  C6_login_indistinguishable (fun _ => true) defaultConfig 0 dbOne "c@d.com" "pw"
    "a@b.com" "wrong" ⟨1, "a@b.com", hashPassword emptyEnv 5 "secret1", none⟩
    rfl (by decide) rfl (by decide) (by decide) (by decide) (by decide)

/-! ### Claim C7 -/

/-- C7 counterexample: a registration request for an already-stored
email whose password is shorter than six characters fails the schema
validation that the handler runs before the duplicate check, so it
returns the validation message rather than the claimed conflict
message; the state is still unchanged and the hasher still not
called, but the response refutes the claim as stated. -/
theorem C7_register_counterexample :
    (dbOne.any (fun w => w.email == "a@b.com") = true) ∧
    (register (fun _ => true) (hashPassword emptyEnv 5) dbOne "a@b.com" "abc" none).1.message
      = "Validation error" ∧
    (register (fun _ => true) (hashPassword emptyEnv 5) dbOne "a@b.com" "abc" none).1.message
      ≠ "Email already exists" := by
  refine ⟨by decide, by decide, by decide⟩

/-- C7 amended: for every registration request that passes the schema
validation and whose email already has a stored credential, the
handler returns the 400 conflict response with the
email-already-exists message and leaves the store unchanged, and the
result is the same for every injected hasher, so the password hasher
is never invoked on this path. -/
theorem C7_register_conflict (emailValid : String → Bool) (hw : String → List Char)
    (db : Db) (email password : String) (name : Option String)
    (hv : emailValid email = true) (hl : 6 ≤ password.length)
    (hdup : db.any (fun w => w.email == email) = true) :
    register emailValid hw db email password name =
      (⟨400, false, "Email already exists", none, none⟩, db) := by
  unfold register
  rw [if_pos ⟨hv, hl⟩, if_pos hdup]

/-- C7 witness: registering the already-stored email with a valid
password returns the conflict response and leaves the one-credential
store unchanged. -/
theorem C7_register_conflict_witness :
    register (fun _ => true) (hashPassword emptyEnv 5) dbOne "a@b.com" "longpw" none =
      (⟨400, false, "Email already exists", none, none⟩, dbOne) :=
  C7_register_conflict (fun _ => true) (hashPassword emptyEnv 5) dbOne "a@b.com"
    "longpw" none rfl (by decide) (by decide)

/-! ### Claim C8 -/

/-- C8: verifyPassword is a total function (so it never throws for any
hash string), and for every plaintext and every malformed hash string —
one the parser rejects — it evaluates to false rather than propagating
an error. -/
theorem C8_malformed_hash_false (p : String) (hs : List Char)
    (h : parseBcryptHash hs = none) : verifyPassword p hs = false := by
  unfold verifyPassword bcryptCompare
  rw [h]

/-- C8 witness: a string with no separator structure does not parse
and verification of any password against it returns false. -/
theorem C8_malformed_hash_false_witness :
    parseBcryptHash "nothash".data = none ∧
    verifyPassword "x" "nothash".data = false :=
  ⟨by decide, C8_malformed_hash_false "x" "nothash".data (by decide)⟩

/-! ### Claim C9 -/

/-- C9 counterexample: in an environment where every variable is set
to the string twelve — so any conceivable cost variable is configured
to twelve — the hash produced by hashPassword still embeds cost ten,
so the cost factor is not consumed from environment configuration. -/
theorem C9_cost_counterexample :
    (parseBcryptHash (hashPassword envTwelve 3 "pw")).map BcryptParams.cost = some 10 ∧
    ((10 : Nat) ≠ 12) := by
  refine ⟨by decide, by decide⟩

/-- C9 amended: the hashing cost factor used by hashPassword is the
literal constant ten for every environment; unlike the signing secret
and token lifetime it is not consumed from environment configuration,
and the produced hash always embeds cost ten. -/
theorem C9_cost_fixed_at_ten (env env2 : Env) (salt : Nat) (p : String) :
    hashPassword env salt p = hashPassword env2 salt p ∧
    (parseBcryptHash (hashPassword env salt p)).map BcryptParams.cost = some 10 := by
  constructor
  · rfl
  · unfold hashPassword bcryptHash
    rw [parseBcryptHash_bcryptHashString]
    rfl

/-! ### Claim C10 -/

/-- C10 counterexample: the header consisting of the bearer scheme
word followed by a single trailing space contains a space and has an
(empty) second space-separated segment, yet the guard rejects it with
the access-token-required message instead of passing the segment to
verification, whose outcome would carry the invalid-token message;
this refutes the claim that every header containing a space has its
second segment passed to verification. -/
theorem C10_scheme_counterexample :
    ("Bearer ".data.contains spaceChar = true) ∧
    ((splitOnChar spaceChar "Bearer ".data).get? 1 = some []) ∧
    authenticateToken defaultConfig 0 (some "Bearer ".data) =
      AuthResult.rejected 401 false "Access token required" ∧
    authenticateToken defaultConfig 0 (some "Bearer ".data) ≠
      tokenDecision (verifyToken defaultConfig 0) [] := by
  refine ⟨by decide, by decide, by decide, by decide⟩

/-- C10 amended: the guard never checks that the scheme is literally
the bearer word: for every header whose second space-separated segment
is nonempty, that segment is passed to token verification and the
outcome is exactly the verification decision, whatever the first
segment says; a header with no second segment, or with an empty
second segment as in the counterexample, is rejected with the
access-token-required message. -/
theorem C10_no_scheme_check (v : List Char → Option JwtPayload) (h : List Char) :
    (∀ t, extractToken (some h) = some t → t ≠ [] →
      authenticateTokenWith v (some h) = tokenDecision v t) ∧
    (extractToken (some h) = none →
      authenticateTokenWith v (some h) =
        AuthResult.rejected 401 false "Access token required") := by
  constructor
  · intro t hex hne
    unfold authenticateTokenWith
    simp only [hex]
    rw [if_neg hne]
  · intro hnone
    unfold authenticateTokenWith
    rw [hnone]

/-- C10 witness: a basic-scheme header is decided exactly by
verification of its second segment, and a bare token with no space is
rejected as missing. -/
theorem C10_no_scheme_check_witness :
    authenticateTokenWith (verifyToken defaultConfig 0) (some "Basic abc".data) =
      tokenDecision (verifyToken defaultConfig 0) "abc".data ∧
    authenticateTokenWith (verifyToken defaultConfig 0) (some "justtoken".data) =
      AuthResult.rejected 401 false "Access token required" :=
  ⟨(C10_no_scheme_check (verifyToken defaultConfig 0) "Basic abc".data).1
      "abc".data (by decide) (by decide),
   (C10_no_scheme_check (verifyToken defaultConfig 0) "justtoken".data).2 (by decide)⟩
